import Mathlib

/-!
Shallow embedding of the `stream-guard` crate (src/src/lib.rs).

The crate provides `StreamGuard<S, F>`, an RAII wrapper around a `Stream`
that stores a cleanup closure in an `Option` and runs it when the guard is
dropped.  We model:

* a stream as a deterministic state machine `InnerStream σ α`: one step of
  `poll_next` maps a state to a successor state and a `Poll` outcome, and
  `size_hint` maps a state to `(lower, Option upper)`;
* the guard as the record `StreamGuard σ F` with fields `stream` and
  `on_drop : Option F`, exactly the Rust struct;
* side effects (invocations of the cleanup action) as explicit lists of the
  actions that were run, so that "exactly once" is a statement about a list;
* Rust `panic` (the `expect` in the drop hook) as `Except.error` carrying
  the panic message;
* the drop glue as an event list: the `PinnedDrop` hook runs first, then the
  fields are dropped (releasing the inner stream).
-/

namespace StreamGuardSpec

variable {σ α F : Type}

/-- Outcome of one poll of a stream: `Poll::Pending`, `Poll::Ready(Some _)`
or `Poll::Ready(None)`. -/
inductive Poll (α : Type) where
  | pending : Poll α
  | ready : Option α → Poll α
deriving DecidableEq, Repr

/-- A deterministic model of a value implementing the `Stream` trait: the
opaque internal state is `σ`, `pollNext` performs one poll step and
`sizeHint` reports the size estimate of a state. -/
structure InnerStream (σ α : Type) : Type where
  pollNext : σ → σ × Poll α
  sizeHint : σ → Nat × Option Nat

/-- The Rust struct `StreamGuard<S, F> { stream: S, on_drop: Option<F> }`
(src/src/lib.rs lines 34-38).  The wrapper has no other field: in
particular no termination flag. -/
structure StreamGuard (σ F : Type) : Type where
  stream : σ
  on_drop : Option F

/-- The constructor `StreamGuard::new` (lib.rs lines 42-44):
`Self { stream, on_drop: Some(on_drop) }`.  It is a total function — no
error case — and performs no effect beyond storing its two arguments. -/
def StreamGuard.new (stream : σ) (on_drop : F) : StreamGuard σ F :=
  StreamGuard.mk stream (some on_drop)

/-- Result of one poll of the wrapper: the updated guard, the forwarded
`Poll` outcome, and the list of cleanup actions invoked by this call. -/
structure PollOutput (σ α F : Type) : Type where
  guard : StreamGuard σ F
  result : Poll α
  invoked : List F

/-- The wrapper's `poll_next` (lib.rs lines 50-52):
`self.project().stream.poll_next(cx)`.  It forwards the poll to the inner
stream, returns its outcome verbatim, leaves `on_drop` untouched and
invokes no action. -/
def StreamGuard.poll_next (S : InnerStream σ α) (g : StreamGuard σ F) :
    PollOutput σ α F :=
  PollOutput.mk (StreamGuard.mk (S.pollNext g.stream).1 g.on_drop)
    (S.pollNext g.stream).2 []

/-- The wrapper's `size_hint` (lib.rs lines 54-56):
`self.stream.size_hint()`. -/
def StreamGuard.size_hint (S : InnerStream σ α) (g : StreamGuard σ F) :
    Nat × Option Nat :=
  S.sizeHint g.stream

/-- Rust's `Option::take`: returns the pair (value left in the slot, value
extracted).  The slot is unconditionally `none` afterwards. -/
def optionTake (o : Option F) : Option F × Option F :=
  (none, o)

/-- The panic message of the `expect` in the drop hook (lib.rs line 62). -/
def expectMsg : String :=
  "No on_drop function in StreamGuard, was drop called twice or constructed wrongly?"

/-- The `PinnedDrop` hook (lib.rs lines 59-64):
`self.project().on_drop.take().expect("...")()`.
First `take` empties the slot, then `expect` panics (modelled as
`Except.error expectMsg`) if the extracted value is `none`, and otherwise
the extracted action is invoked.  On success we return the guard with the
emptied slot together with the one-element invocation list. -/
def StreamGuard.drop (g : StreamGuard σ F) :
    Except String (StreamGuard σ F × List F) :=
  match (optionTake g.on_drop).2 with
  | none => Except.error expectMsg
  | some f => Except.ok (StreamGuard.mk g.stream (optionTake g.on_drop).1, [f])

/-- Events of a full destruction of the guard. -/
inductive TeardownEvent (σ F : Type) where
  | panicEmptySlot : TeardownEvent σ F
  | runAction : F → TeardownEvent σ F
  | releaseInner : σ → TeardownEvent σ F

/-- Rust's drop glue for `StreamGuard`: the custom `PinnedDrop` hook runs
first (lib.rs lines 59-64), and only afterwards are the struct's fields
dropped, which releases the inner stream's storage. -/
def StreamGuard.destroy (g : StreamGuard σ F) : List (TeardownEvent σ F) :=
  (match (optionTake g.on_drop).2 with
    | none => [TeardownEvent.panicEmptySlot]
    | some f => [TeardownEvent.runAction f]) ++
  [TeardownEvent.releaseInner g.stream]

/-- The extension method `GuardStreamExt::guard` (lib.rs lines 72-76):
`StreamGuard::new(self, on_drop)`. -/
def GuardStreamExt.guard (s : σ) (on_drop : F) : StreamGuard σ F :=
  StreamGuard.new s on_drop

/-- Iterated polling of the wrapper: the guard state after `n` polls. -/
def StreamGuard.pollN (S : InnerStream σ α) (g : StreamGuard σ F) :
    Nat → StreamGuard σ F
  | 0 => g
  | n + 1 => (StreamGuard.poll_next S (StreamGuard.pollN S g n)).guard

/-- Iterated polling of the inner stream directly: the state after `n`
polls. -/
def InnerStream.iterate (S : InnerStream σ α) (s : σ) : Nat → σ
  | 0 => s
  | n + 1 => (S.pollNext (S.iterate s n)).1

/-- Sequence of the first `n` outcomes when the inner stream is polled
directly. -/
def InnerStream.trace (S : InnerStream σ α) (s : σ) : Nat → List (Poll α)
  | 0 => []
  | n + 1 => S.trace s n ++ [(S.pollNext (S.iterate s n)).2]

/-- Sequence of the first `n` outcomes when the wrapper is polled. -/
def StreamGuard.trace (S : InnerStream σ α) (g : StreamGuard σ F) :
    Nat → List (Poll α)
  | 0 => []
  | n + 1 =>
      StreamGuard.trace S g n ++
        [(StreamGuard.poll_next S (StreamGuard.pollN S g n)).result]

/-- A complete run of the guard: construct it with `new`, poll it `n`
times, then release (drop) it.  The result is the list of cleanup-action
invocations over the whole run, or the panic message. -/
def runRelease (S : InnerStream σ α) (s : σ) (f : F) (n : Nat) :
    Except String (List F) :=
  match StreamGuard.drop (StreamGuard.pollN S (StreamGuard.new s f) n) with
  | Except.error e => Except.error e
  | Except.ok p => Except.ok p.2

/-- A concrete stream that is not fused: its first poll reports
end-of-sequence and its second poll yields the item `7` again. -/
def postNoneStream : InnerStream Nat Nat :=
  InnerStream.mk
    (fun s => (s + 1, if s = 0 then Poll.ready none else Poll.ready (some 7)))
    (fun _ => (0, none))

/- ------------------------------------------------------------------ -/
/- Helper lemmas                                                       -/
/- ------------------------------------------------------------------ -/

/-- Polling never touches the cleanup slot. -/
theorem pollN_on_drop (S : InnerStream σ α) (g : StreamGuard σ F) (n : Nat) :
    (StreamGuard.pollN S g n).on_drop = g.on_drop := by
  induction n with
  | zero => rfl
  | succ n ih =>
      simp [StreamGuard.pollN, StreamGuard.poll_next, ih]

/-- The inner state of the wrapper after `n` polls is exactly the state of
the inner stream polled `n` times directly. -/
theorem pollN_stream (S : InnerStream σ α) (g : StreamGuard σ F) (n : Nat) :
    (StreamGuard.pollN S g n).stream = S.iterate g.stream n := by
  induction n with
  | zero => rfl
  | succ n ih =>
      simp [StreamGuard.pollN, StreamGuard.poll_next, InnerStream.iterate, ih]

/- ------------------------------------------------------------------ -/
/- Claims                                                              -/
/- ------------------------------------------------------------------ -/

/-- C1: for every inner stream, initial state, cleanup action and number
`n` of polls, running the guard (construct, poll `n` times, release)
invokes the cleanup action exactly once — the run's invocation list is the
one-element list `[f]` and the release does not panic. -/
theorem C1_exactly_once (S : InnerStream σ α) (s : σ) (f : F) (n : Nat) :
    runRelease S s f n = Except.ok [f] := by
  have hd : (StreamGuard.pollN S (StreamGuard.new s f) n).on_drop = some f := by
    rw [pollN_on_drop]; rfl
  simp [runRelease, StreamGuard.drop, optionTake, hd]

/-- C2: every single poll of the guard returns exactly the inner stream's
outcome with no extra invocation, and hence the sequence of the first `n`
outcomes of the wrapper is identical, in the identical order, to the
sequence obtained by polling the inner stream directly. -/
theorem C2_transparency (S : InnerStream σ α) (s : σ) (f : F) (n : Nat)
    (g : StreamGuard σ F) :
    StreamGuard.trace S (StreamGuard.new s f) n = S.trace s n ∧
    (StreamGuard.poll_next S g).result = (S.pollNext g.stream).2 ∧
    (StreamGuard.poll_next S g).invoked = [] := by
  refine ⟨?_, rfl, rfl⟩
  induction n with
  | zero => rfl
  | succ n ih =>
      simp only [StreamGuard.new] at ih ⊢
      simp [StreamGuard.trace, InnerStream.trace, ih,
        StreamGuard.poll_next, pollN_stream]

/-- C3: at every point of the poll sequence (after any number `n` of
polls), `size_hint` on the guard equals `size_hint` of the inner stream at
the corresponding state, with no adjustment. -/
theorem C3_size_passthrough (S : InnerStream σ α) (s : σ) (f : F) (n : Nat) :
    StreamGuard.size_hint S (StreamGuard.pollN S (StreamGuard.new s f) n)
      = S.sizeHint (S.iterate s n) := by
  simp [StreamGuard.size_hint, pollN_stream, StreamGuard.new]

/-- C4: from construction on, after any number of polls the cleanup slot
still holds the untouched action (`some f`), and the next poll — whatever
the inner stream has reported so far, including end-of-sequence — invokes
nothing: the action cannot run before release. -/
theorem C4_cleanup_invariant (S : InnerStream σ α) (s : σ) (f : F) (n : Nat) :
    (StreamGuard.pollN S (StreamGuard.new s f) n).on_drop = some f ∧
    (StreamGuard.poll_next S
        (StreamGuard.pollN S (StreamGuard.new s f) n)).invoked = [] := by
  refine ⟨?_, rfl⟩
  rw [pollN_on_drop]; rfl

/-- C5: if the drop hook runs while the cleanup slot is already empty, it
panics with the diagnostic message of the `expect` call instead of
silently skipping. -/
theorem C5_double_teardown_panics (s : σ) :
    StreamGuard.drop (StreamGuard.mk s (none : Option F))
      = Except.error expectMsg := by
  rfl

/-- C6: destroying a guard whose slot holds an action produces exactly the
event sequence "run the cleanup action, then release the inner stream's
storage" — the action runs strictly before the inner stream is released. -/
theorem C6_teardown_order (s : σ) (f : F) :
    StreamGuard.destroy (StreamGuard.mk s (some f))
      = [TeardownEvent.runAction f, TeardownEvent.releaseInner s] := by
  rfl

/-- C7: the fluent extension method `guard` produces exactly the guard
produced by the constructor `new` on the same stream and action. -/
theorem C7_guard_eq_new (s : σ) (f : F) :
    GuardStreamExt.guard s f = StreamGuard.new s f := by
  rfl

/-- C8: construction is a total function with no effect channel: `new`
yields exactly the record owning both inputs, with the cleanup slot
populated (`some f`); no action has been invoked. -/
theorem C8_new_spec (s : σ) (f : F) :
    StreamGuard.new s f = StreamGuard.mk s (some f) ∧
    (StreamGuard.new s f).on_drop = some f ∧
    (StreamGuard.new s f).stream = s := by
  exact ⟨rfl, rfl, rfl⟩

/-- C9: `take` empties the slot unconditionally before the extracted
action is invoked, so a second entry into the teardown hook on the
post-take state finds the slot empty and panics instead of starting the
action a second time. -/
theorem C9_take_before_invoke (g : StreamGuard σ F) :
    (optionTake g.on_drop).1 = none ∧
    StreamGuard.drop (StreamGuard.mk g.stream (optionTake g.on_drop).1)
      = Except.error expectMsg := by
  exact ⟨rfl, rfl⟩

/-- C10: the wrapper keeps no termination flag: each poll is forwarded to
the inner stream regardless of history, so post-exhaustion polling is
exactly the inner stream's behaviour.  Concretely, on `postNoneStream` the
wrapper's first poll reports end-of-sequence and its second poll still
yields the item `7`, not a guaranteed `Ready(None)`. -/
theorem C10_no_fusing (S : InnerStream σ α) (g : StreamGuard σ F) :
    (StreamGuard.poll_next S g).result = (S.pollNext g.stream).2 ∧
    (StreamGuard.poll_next postNoneStream
        (StreamGuard.new 0 ())).result = Poll.ready none ∧
    (StreamGuard.poll_next postNoneStream
        (StreamGuard.poll_next postNoneStream
          (StreamGuard.new 0 ())).guard).result = Poll.ready (some 7) := by
  exact ⟨rfl, rfl, rfl⟩

end StreamGuardSpec
